import Mathlib

/-!
Verification of the authenticated request gateway (the axios client with
request/response interceptors), the toast store, and the bulk-schedule
confirmation payload of the social-media-manager front-end.

The definitions below are a shallow embedding of the TypeScript source:
pure functions become Lean functions, the browser-side effects of a single
interceptor invocation (localStorage writes, window.location navigation,
outgoing renewal POSTs, re-dispatched requests) are collected in an explicit
result record, and the outcomes of external HTTP calls (the renewal POST and
the re-dispatched retry) are taken as parameters.
-/

/-- HTTP headers of a request config. The interceptors only ever touch the
`Authorization` header; all other headers are carried opaquely in `rest`. -/
structure Headers where
  Authorization : Option String
  rest : List (String × String)
deriving Repr, DecidableEq

/-- An axios request config: method, URL, headers, an opaque body, and the
one-shot `_retry` marker the response interceptor sets on first 401. -/
structure Config where
  method : String
  url : String
  headers : Headers
  body : Option String
  _retry : Bool
deriving Repr, DecidableEq

/-- An HTTP response as seen by the response interceptor: its status and an
opaque tag standing for its payload. -/
structure Response where
  status : Nat
  dataTag : String
deriving Repr, DecidableEq

/-- An axios rejection: the originating request config and, when the server
replied, its response (`none` models a network-level failure). -/
structure AxiosError where
  config : Config
  response : Option Response
deriving Repr, DecidableEq

/-- The body returned by the renewal endpoint on success. -/
structure RefreshData where
  access_token : String
  refresh_token : String
deriving Repr, DecidableEq

/-- The client-side durable storage, restricted to the two fixed keys the
gateway reads and writes: `access_token` and `refresh_token`
(`localStorage.getItem`/`setItem`/`removeItem` on those keys). -/
structure Storage where
  access_token : Option String
  refresh_token : Option String
deriving Repr, DecidableEq

/-- The request interceptor: read the access token from storage and, if
present, attach it as the bearer Authorization header; otherwise return the
config untouched. -/
def requestInterceptor (store : Storage) (config : Config) : Config :=
  match store.access_token with
  | some token =>
      { config with
        headers := { config.headers with Authorization := some ("Bearer " ++ token) } }
  | none => config

/-- The response interceptor's fulfilled handler: `(response) => response`. -/
def responseFulfilled (response : Response) : Response := response

/-- The raw network outcome of the renewal POST: either the server replied
with some status and body, or the request failed at the network level. -/
inductive HttpResult where
  | reply (status : Nat) (body : RefreshData)
  | netFail
deriving Repr, DecidableEq

/-- The config of the renewal request `axios.post('/api/v1/auth/refresh', {refresh_token})`. -/
def refreshRequestConfig (refreshToken : String) : Config :=
  { method := "POST", url := "/api/v1/auth/refresh",
    headers := { Authorization := none, rest := [] },
    body := some refreshToken, _retry := false }

/-- How the renewal `axios.post` promise settles: axios resolves exactly on a
2xx status (its default `validateStatus`), yielding the parsed body, and
rejects otherwise with an error carrying the renewal request's config. -/
def axiosPostSettle (refreshToken : String) : HttpResult → Except AxiosError RefreshData
  | .reply status body =>
      if 200 ≤ status ∧ status < 300 then Except.ok body
      else Except.error { config := refreshRequestConfig refreshToken,
                          response := some { status := status, dataTag := "refresh" } }
  | .netFail => Except.error { config := refreshRequestConfig refreshToken, response := none }

/-- One outgoing renewal call: the endpoint URL and the `refresh_token`
field of its JSON body. -/
structure RenewalCall where
  url : String
  refresh_token : String
deriving Repr, DecidableEq

instance {ε α : Type} [DecidableEq ε] [DecidableEq α] : DecidableEq (Except ε α) := fun x y =>
  match x, y with
  | .error a, .error b =>
      if h : a = b then .isTrue (by rw [h]) else .isFalse (by simp [h])
  | .error _, .ok _ => .isFalse (by simp)
  | .ok _, .error _ => .isFalse (by simp)
  | .ok a, .ok b =>
      if h : a = b then .isTrue (by rw [h]) else .isFalse (by simp [h])

/-- Everything one invocation of the response interceptor's rejected handler
does: the storage it leaves behind, the navigation it performs (an assignment
to `window.location.href`), the renewal calls it makes, the configs it
re-dispatches through the gateway, and how the caller's promise settles. -/
structure GatewayResult where
  storage : Storage
  navigation : Option String
  renewalCalls : List RenewalCall
  retries : List Config
  outcome : Except AxiosError Response
deriving Repr, DecidableEq

/-- The response interceptor's rejected handler, translated branch by branch
from the source. `renewalNet` is the network outcome of the renewal POST
(consulted only when that POST is actually made) and `retryOutcome` is how the
re-dispatched request's promise settles (consulted only when a retry is
dispatched). -/
def responseRejected (store : Storage) (error : AxiosError)
    (renewalNet : HttpResult) (retryOutcome : Except AxiosError Response) :
    GatewayResult :=
  let original := error.config
  if error.response.map Response.status = some 401 ∧ original._retry = false then
    let original := { original with _retry := true }
    match store.refresh_token with
    | some refreshToken =>
        let call : RenewalCall := ⟨"/api/v1/auth/refresh", refreshToken⟩
        match axiosPostSettle refreshToken renewalNet with
        | Except.ok data =>
            let store' : Storage := ⟨some data.access_token, some data.refresh_token⟩
            let original' :=
              { original with
                headers := { original.headers with
                             Authorization := some ("Bearer " ++ data.access_token) } }
            { storage := store', navigation := none, renewalCalls := [call],
              retries := [original'], outcome := retryOutcome }
        | Except.error _ =>
            { storage := ⟨none, none⟩, navigation := some "/login",
              renewalCalls := [call], retries := [], outcome := Except.error error }
    | none =>
        { storage := store, navigation := some "/login",
          renewalCalls := [], retries := [], outcome := Except.error error }
  else
    { storage := store, navigation := none, renewalCalls := [], retries := [],
      outcome := Except.error error }

/-! ### Toast store (`useToastStore` in Toast.tsx) -/

/-- The four toast kinds of `ToastType`. -/
inductive ToastType where
  | success
  | error
  | warning
  | info
deriving Repr, DecidableEq

/-- One toast of the store: id, message, kind and duration
(milliseconds; the JS caller may pass 0 to disable auto-removal). -/
structure Toast where
  id : String
  message : String
  type : ToastType
  duration : Int
deriving Repr, DecidableEq

/-- `addToast`: append the new toast to the list and, when `duration > 0`,
schedule its removal after `duration` milliseconds. The generated id is a
parameter (in the source it is derived from `Date.now()` and
`Math.random()`); the second component is the scheduled auto-removal, if
any (`setTimeout` of a removal of that id). -/
def addToast (toasts : List Toast) (id message : String) (type : ToastType)
    (duration : Int) : List Toast × Option (String × Int) :=
  (toasts ++ [{ id := id, message := message, type := type, duration := duration }],
   if duration > 0 then some (id, duration) else none)

/-- `removeToast`: keep exactly the toasts whose id differs from the given id. -/
def removeToast (toasts : List Toast) (id : String) : List Toast :=
  toasts.filter (fun t => t.id != id)

/-! ### Bulk-schedule confirmation (`confirmMutation` in the BulkSchedule page) -/

/-- One row of the bulk-upload preview (`BulkPreviewEntry` in api/bulk.ts). -/
structure BulkPreviewEntry where
  row_number : Nat
  caption : String
  platforms : List String
  schedule_time : String
  is_valid : Bool
  error : Option String
deriving Repr, DecidableEq

/-- The projection of a preview entry submitted to `confirmBulkSchedule`:
only `row_number`, `caption`, `platforms` and `schedule_time`. -/
structure BulkPayloadItem where
  row_number : Nat
  caption : String
  platforms : List String
  schedule_time : String
deriving Repr, DecidableEq

/-- The field projection applied to each kept entry in `confirmMutation`. -/
def projectEntry (e : BulkPreviewEntry) : BulkPayloadItem :=
  { row_number := e.row_number, caption := e.caption,
    platforms := e.platforms, schedule_time := e.schedule_time }

/-- The payload built by `confirmMutation`:
`entries.filter((e) => e.is_valid).map(project)`. -/
def confirmPayload (entries : List BulkPreviewEntry) : List BulkPayloadItem :=
  (entries.filter (fun e => e.is_valid)).map projectEntry

/-! ### Concrete inputs used by counterexamples and witnesses -/

/-- A GET to `/posts/` carrying the bearer header for access token "A1",
not yet retried. -/
def postsConfig : Config :=
  { method := "GET", url := "/posts/", headers := ⟨some "Bearer A1", []⟩,
    body := none, _retry := false }

/-- The original rejection: the `/posts/` request got a 401. -/
def postsError401 : AxiosError :=
  { config := postsConfig, response := some { status := 401, dataTag := "orig" } }

/-- Storage holding access "A1" and refresh "R1". -/
def storageA1R1 : Storage := ⟨some "A1", some "R1"⟩

/-- Storage holding access "A1" and no refresh credential. -/
def storageA1only : Storage := ⟨some "A1", none⟩

/-- The rejection axios produces when the renewal POST itself returns 401. -/
def renewalFailureError : AxiosError :=
  { config := refreshRequestConfig "R1",
    response := some { status := 401, dataTag := "refresh" } }

/-! ## Theorems -/

/-- C1: on a first 401 with a refresh credential in storage, when the renewal
POST succeeds the gateway persists the newly issued access and refresh
credentials under the fixed storage keys, re-attaches the new access
credential as the bearer Authorization header of the original request,
re-dispatches that request exactly once, and the caller's promise settles to
the retry's outcome; the re-dispatched config, passing again through the
request interceptor with the updated storage, still carries the new bearer
header. -/
theorem gateway_refresh_success_retry
    (store : Storage) (error : AxiosError) (refreshToken : String)
    (status : Nat) (body : RefreshData) (retryOutcome : Except AxiosError Response)
    (h401 : error.response.map Response.status = some 401)
    (hretry : error.config._retry = false)
    (hrt : store.refresh_token = some refreshToken)
    (h2xx : 200 ≤ status ∧ status < 300) :
    responseRejected store error (HttpResult.reply status body) retryOutcome =
      { storage := ⟨some body.access_token, some body.refresh_token⟩,
        navigation := none,
        renewalCalls := [⟨"/api/v1/auth/refresh", refreshToken⟩],
        retries := [{ error.config with
                      _retry := true,
                      headers := { error.config.headers with
                                   Authorization :=
                                     some ("Bearer " ++ body.access_token) } }],
        outcome := retryOutcome } ∧
    ((responseRejected store error (HttpResult.reply status body) retryOutcome).retries.map
        (fun c =>
          (requestInterceptor
            (responseRejected store error (HttpResult.reply status body) retryOutcome).storage
            c).headers.Authorization)) =
      [some ("Bearer " ++ body.access_token)] := by
  refine ⟨?_, ?_⟩ <;>
    simp [responseRejected, axiosPostSettle, requestInterceptor,
          h401, hretry, hrt, h2xx.1, h2xx.2]

/-- C1 witness: the concrete scenario with access "A1"/refresh "R1" in
storage, a 401 on GET /posts/, and a renewal reply {access_token: "A2",
refresh_token: "R2"}. -/
theorem gateway_refresh_success_retry_witness :
    responseRejected storageA1R1 postsError401 (HttpResult.reply 200 ⟨"A2", "R2"⟩)
        (Except.ok ⟨200, "ok"⟩) =
      { storage := ⟨some "A2", some "R2"⟩,
        navigation := none,
        renewalCalls := [⟨"/api/v1/auth/refresh", "R1"⟩],
        retries := [{ postsError401.config with
                      _retry := true,
                      headers := { postsError401.config.headers with
                                   Authorization := some ("Bearer " ++ "A2") } }],
        outcome := Except.ok ⟨200, "ok"⟩ } ∧
    ((responseRejected storageA1R1 postsError401 (HttpResult.reply 200 ⟨"A2", "R2"⟩)
        (Except.ok ⟨200, "ok"⟩)).retries.map
        (fun c =>
          (requestInterceptor
            (responseRejected storageA1R1 postsError401 (HttpResult.reply 200 ⟨"A2", "R2"⟩)
              (Except.ok ⟨200, "ok"⟩)).storage
            c).headers.Authorization)) = [some ("Bearer " ++ "A2")] :=
  gateway_refresh_success_retry storageA1R1 postsError401 "R1" 200 ⟨"A2", "R2"⟩
    (Except.ok ⟨200, "ok"⟩) rfl rfl rfl (by decide)

/-- C2: a request that was already retried once and receives a second 401 is
propagated to the caller as a failure with no renewal call, no retry, no
navigation and no storage change. -/
theorem gateway_second_401_terminal
    (store : Storage) (error : AxiosError) (renewalNet : HttpResult)
    (retryOutcome : Except AxiosError Response)
    (h401 : error.response.map Response.status = some 401)
    (hretry : error.config._retry = true) :
    responseRejected store error renewalNet retryOutcome =
      { storage := store, navigation := none, renewalCalls := [], retries := [],
        outcome := Except.error error } := by
  simp [responseRejected, h401, hretry]

/-- C2 witness: the already-retried /posts/ request receiving a second 401. -/
theorem gateway_second_401_terminal_witness :
    responseRejected storageA1R1
        { config := { postsConfig with _retry := true },
          response := some { status := 401, dataTag := "second" } }
        HttpResult.netFail (Except.ok ⟨200, "unused"⟩) =
      { storage := storageA1R1, navigation := none, renewalCalls := [], retries := [],
        outcome := Except.error
          { config := { postsConfig with _retry := true },
            response := some { status := 401, dataTag := "second" } } } :=
  gateway_second_401_terminal storageA1R1
    { config := { postsConfig with _retry := true },
      response := some { status := 401, dataTag := "second" } }
    HttpResult.netFail (Except.ok ⟨200, "unused"⟩) rfl rfl

/-- C3 counterexample: with access "A1" in storage and no refresh credential,
a first 401 makes no renewal call and navigates to /login, but storage is NOT
cleared — the access credential "A1" is still there, refuting the claim that
both stored credentials are cleared in this branch. -/
theorem gateway_no_refresh_counterexample :
    (responseRejected storageA1only postsError401 HttpResult.netFail
        (Except.error postsError401)).renewalCalls = [] ∧
    (responseRejected storageA1only postsError401 HttpResult.netFail
        (Except.error postsError401)).navigation = some "/login" ∧
    (responseRejected storageA1only postsError401 HttpResult.netFail
        (Except.error postsError401)).storage.access_token = some "A1" ∧
    (responseRejected storageA1only postsError401 HttpResult.netFail
        (Except.error postsError401)).storage ≠ (⟨none, none⟩ : Storage) := by
  decide

/-- C3 amended: on a first 401 with no refresh credential in storage, no
renewal call is made, the client navigates to the login route, and the
original failure is propagated — but storage is left unchanged, not
cleared. -/
theorem gateway_no_refresh_token
    (store : Storage) (error : AxiosError) (renewalNet : HttpResult)
    (retryOutcome : Except AxiosError Response)
    (h401 : error.response.map Response.status = some 401)
    (hretry : error.config._retry = false)
    (hrt : store.refresh_token = none) :
    responseRejected store error renewalNet retryOutcome =
      { storage := store, navigation := some "/login", renewalCalls := [], retries := [],
        outcome := Except.error error } := by
  simp [responseRejected, h401, hretry, hrt]

/-- C3 amended witness: concrete instance of the no-refresh-credential
branch. -/
theorem gateway_no_refresh_token_witness :
    responseRejected storageA1only postsError401 HttpResult.netFail
        (Except.ok ⟨200, "unused"⟩) =
      { storage := storageA1only, navigation := some "/login", renewalCalls := [],
        retries := [], outcome := Except.error postsError401 } :=
  gateway_no_refresh_token storageA1only postsError401 HttpResult.netFail
    (Except.ok ⟨200, "unused"⟩) rfl rfl rfl

/-- C4 counterexample: refresh credential "R1" present, renewal POST itself
returns 401; the renewal settles to the renewal-failure error, yet the
caller's promise settles to the ORIGINAL 401 error, which differs from the
renewal failure — refuting the claim that the renewal failure is
delivered. -/
theorem gateway_refresh_failure_counterexample :
    axiosPostSettle "R1" (HttpResult.reply 401 ⟨"", ""⟩) =
        Except.error renewalFailureError ∧
    (responseRejected storageA1R1 postsError401 (HttpResult.reply 401 ⟨"", ""⟩)
        (Except.ok ⟨200, "unused"⟩)).outcome = Except.error postsError401 ∧
    (Except.error postsError401 : Except AxiosError Response) ≠
        Except.error renewalFailureError := by
  decide

/-- C4 amended: on a first 401 with a refresh credential present, when the
renewal call fails both credentials are cleared from storage and the client
navigates to the login route — but the error delivered to the original
caller is the ORIGINAL 401, not the renewal failure. -/
theorem gateway_refresh_failure
    (store : Storage) (error : AxiosError) (refreshToken : String)
    (renewalNet : HttpResult) (retryOutcome : Except AxiosError Response)
    (h401 : error.response.map Response.status = some 401)
    (hretry : error.config._retry = false)
    (hrt : store.refresh_token = some refreshToken)
    (hfail : ∀ d, axiosPostSettle refreshToken renewalNet ≠ Except.ok d) :
    responseRejected store error renewalNet retryOutcome =
      { storage := ⟨none, none⟩, navigation := some "/login",
        renewalCalls := [⟨"/api/v1/auth/refresh", refreshToken⟩], retries := [],
        outcome := Except.error error } := by
  cases hs : axiosPostSettle refreshToken renewalNet with
  | ok d => exact absurd hs (hfail d)
  | error e => simp [responseRejected, h401, hretry, hrt, hs]

/-- C4 amended witness: the renewal POST replies 401; storage is cleared, the
client navigates to /login, and the original 401 is propagated. -/
theorem gateway_refresh_failure_witness :
    responseRejected storageA1R1 postsError401 (HttpResult.reply 401 ⟨"", ""⟩)
        (Except.ok ⟨200, "unused"⟩) =
      { storage := ⟨none, none⟩, navigation := some "/login",
        renewalCalls := [⟨"/api/v1/auth/refresh", "R1"⟩], retries := [],
        outcome := Except.error postsError401 } :=
  gateway_refresh_failure storageA1R1 postsError401 "R1" (HttpResult.reply 401 ⟨"", ""⟩)
    (Except.ok ⟨200, "unused"⟩) rfl rfl rfl
    (by intro d h; simp [axiosPostSettle] at h)

/-- C5: whenever an access credential is in storage, the request interceptor
attaches it to the outgoing request as the bearer Authorization header
"Bearer " followed by the stored credential. -/
theorem requestInterceptor_attaches_bearer
    (store : Storage) (config : Config) (token : String)
    (h : store.access_token = some token) :
    (requestInterceptor store config).headers.Authorization =
      some ("Bearer " ++ token) := by
  simp [requestInterceptor, h]

/-- C5 witness: with access "A1" stored, the dispatched /posts/ request
carries Authorization "Bearer A1". -/
theorem requestInterceptor_attaches_bearer_witness :
    (requestInterceptor storageA1R1
        { method := "GET", url := "/posts/", headers := ⟨none, []⟩,
          body := none, _retry := false }).headers.Authorization =
      some ("Bearer " ++ "A1") :=
  requestInterceptor_attaches_bearer storageA1R1
    { method := "GET", url := "/posts/", headers := ⟨none, []⟩,
      body := none, _retry := false } "A1" rfl

/-- C6: the gateway is transparent outside the 401 path — every fulfilled
response is returned unchanged, and every rejection whose response status is
not 401 (including network-level failures, which have no response) is
propagated unchanged with no renewal call, no retry, no navigation and no
storage modification. -/
theorem gateway_transparent_outside_401 :
    (∀ response, responseFulfilled response = response) ∧
    (∀ (store : Storage) (error : AxiosError) (renewalNet : HttpResult)
        (retryOutcome : Except AxiosError Response),
      error.response.map Response.status ≠ some 401 →
      responseRejected store error renewalNet retryOutcome =
        { storage := store, navigation := none, renewalCalls := [], retries := [],
          outcome := Except.error error }) := by
  refine ⟨fun _ => rfl, fun store error renewalNet retryOutcome h => ?_⟩
  simp [responseRejected, h]

/-- C6 witness: a fulfilled 200 response is returned unchanged, and a
network-level failure (no response) is propagated unchanged. -/
theorem gateway_transparent_outside_401_witness :
    responseFulfilled ⟨200, "ok"⟩ = ⟨200, "ok"⟩ ∧
    responseRejected storageA1R1 { config := postsConfig, response := none }
        HttpResult.netFail (Except.ok ⟨200, "unused"⟩) =
      { storage := storageA1R1, navigation := none, renewalCalls := [], retries := [],
        outcome := Except.error { config := postsConfig, response := none } } :=
  ⟨gateway_transparent_outside_401.1 ⟨200, "ok"⟩,
   gateway_transparent_outside_401.2 storageA1R1
     { config := postsConfig, response := none } HttpResult.netFail
     (Except.ok ⟨200, "unused"⟩) (by decide)⟩

/-- C7: on a first 401 with a refresh credential present, exactly one renewal
call is made — a POST to the fixed endpoint /api/v1/auth/refresh whose body
carries the stored refresh credential; a renewal reply with any non-2xx
status is treated as renewal failure (storage cleared, navigation to /login,
no retry), and a 2xx reply's access_token and refresh_token are persisted
under the two fixed storage keys. -/
theorem gateway_renewal_call_contract
    (store : Storage) (error : AxiosError) (refreshToken : String)
    (renewalNet : HttpResult) (retryOutcome : Except AxiosError Response)
    (h401 : error.response.map Response.status = some 401)
    (hretry : error.config._retry = false)
    (hrt : store.refresh_token = some refreshToken) :
    (responseRejected store error renewalNet retryOutcome).renewalCalls =
        [⟨"/api/v1/auth/refresh", refreshToken⟩] ∧
    (∀ status body, renewalNet = HttpResult.reply status body →
      ¬(200 ≤ status ∧ status < 300) →
      responseRejected store error renewalNet retryOutcome =
        { storage := ⟨none, none⟩, navigation := some "/login",
          renewalCalls := [⟨"/api/v1/auth/refresh", refreshToken⟩], retries := [],
          outcome := Except.error error }) ∧
    (∀ status body, renewalNet = HttpResult.reply status body →
      200 ≤ status ∧ status < 300 →
      (responseRejected store error renewalNet retryOutcome).storage =
          ⟨some body.access_token, some body.refresh_token⟩ ∧
      (responseRejected store error renewalNet retryOutcome).retries.length = 1) := by
  refine ⟨?_, ?_, ?_⟩
  · cases renewalNet with
    | reply status body =>
        by_cases h2 : 200 ≤ status ∧ status < 300 <;>
          simp [responseRejected, axiosPostSettle, h401, hretry, hrt, h2]
    | netFail => simp [responseRejected, axiosPostSettle, h401, hretry, hrt]
  · rintro status body rfl h2
    simp [responseRejected, axiosPostSettle, h401, hretry, hrt, h2]
  · rintro status body rfl h2
    simp [responseRejected, axiosPostSettle, h401, hretry, hrt, h2.1, h2.2]

/-- C7 witness: the concrete first-401 with refresh "R1"; the single renewal
call targets /api/v1/auth/refresh with body refresh_token "R1", a 500 reply
is treated as failure, and a 200 reply with "A2"/"R2" is persisted. -/
theorem gateway_renewal_call_contract_witness :
    (responseRejected storageA1R1 postsError401 (HttpResult.reply 500 ⟨"", ""⟩)
        (Except.ok ⟨200, "unused"⟩)).renewalCalls =
      [⟨"/api/v1/auth/refresh", "R1"⟩] ∧
    responseRejected storageA1R1 postsError401 (HttpResult.reply 500 ⟨"", ""⟩)
        (Except.ok ⟨200, "unused"⟩) =
      { storage := ⟨none, none⟩, navigation := some "/login",
        renewalCalls := [⟨"/api/v1/auth/refresh", "R1"⟩], retries := [],
        outcome := Except.error postsError401 } :=
  ⟨(gateway_renewal_call_contract storageA1R1 postsError401 "R1"
      (HttpResult.reply 500 ⟨"", ""⟩) (Except.ok ⟨200, "unused"⟩) rfl rfl rfl).1,
   (gateway_renewal_call_contract storageA1R1 postsError401 "R1"
      (HttpResult.reply 500 ⟨"", ""⟩) (Except.ok ⟨200, "unused"⟩) rfl rfl rfl).2.1
     500 ⟨"", ""⟩ rfl (by decide)⟩

/-- C8: when no access credential is in storage, the request interceptor
returns the request config completely unchanged — no Authorization header is
added and no error is raised. -/
theorem requestInterceptor_no_token
    (store : Storage) (config : Config) (h : store.access_token = none) :
    requestInterceptor store config = config := by
  simp [requestInterceptor, h]

/-- C8 witness: with empty storage, a /posts/ request passes through the
request interceptor unchanged. -/
theorem requestInterceptor_no_token_witness :
    requestInterceptor ⟨none, none⟩
        { method := "GET", url := "/posts/", headers := ⟨none, [("X-Req", "1")]⟩,
          body := none, _retry := false } =
      { method := "GET", url := "/posts/", headers := ⟨none, [("X-Req", "1")]⟩,
        body := none, _retry := false } :=
  requestInterceptor_no_token ⟨none, none⟩
    { method := "GET", url := "/posts/", headers := ⟨none, [("X-Req", "1")]⟩,
      body := none, _retry := false } rfl

/-- C9: addToast appends exactly one new toast at the end, leaving existing
toasts and their order unchanged; removeToast removes exactly the toasts with
the given id, preserving the relative order of the rest; if the newly
generated id is not already present, removeToast of that id right after
addToast restores the previous list; and a toast added with duration 0 has no
auto-removal scheduled. -/
theorem toastStore_add_remove
    (toasts : List Toast) (id message : String) (ty : ToastType) (d : Int) :
    (addToast toasts id message ty d).1 =
        toasts ++ [{ id := id, message := message, type := ty, duration := d }] ∧
    List.Sublist (removeToast toasts id) toasts ∧
    (∀ t, t ∈ removeToast toasts id ↔ t ∈ toasts ∧ t.id ≠ id) ∧
    (id ∉ toasts.map Toast.id → removeToast (addToast toasts id message ty d).1 id = toasts) ∧
    (addToast toasts id message ty 0).2 = none := by
  refine ⟨rfl, List.filter_sublist toasts, ?_, ?_, by simp [addToast]⟩
  · intro t
    simp [removeToast, List.mem_filter]
  · intro h
    have hall : ∀ t ∈ toasts, (t.id != id) = true := by
      intro t ht
      simp only [bne_iff_ne, ne_eq]
      intro he
      exact h (List.mem_map.mpr ⟨t, ht, he⟩)
    simp [addToast, removeToast, List.filter_append, List.filter_eq_self.mpr hall]

/-- C9 witness: a concrete two-toast store; adding a fresh toast "n" and
removing it restores the store, removal by id removes exactly that toast,
and a 0-duration toast schedules no auto-removal. -/
theorem toastStore_add_remove_witness :
    (addToast [⟨"a", "first", ToastType.info, 5000⟩] "n" "second" ToastType.success 5000).1 =
      [⟨"a", "first", ToastType.info, 5000⟩] ++
        [{ id := "n", message := "second", type := ToastType.success, duration := 5000 }] ∧
    List.Sublist (removeToast [⟨"a", "first", ToastType.info, 5000⟩] "n")
      [⟨"a", "first", ToastType.info, 5000⟩] ∧
    (∀ t, t ∈ removeToast [⟨"a", "first", ToastType.info, 5000⟩] "n" ↔
      t ∈ [⟨"a", "first", ToastType.info, 5000⟩] ∧ t.id ≠ "n") ∧
    ("n" ∉ ([⟨"a", "first", ToastType.info, 5000⟩] : List Toast).map Toast.id →
      removeToast
        (addToast [⟨"a", "first", ToastType.info, 5000⟩] "n" "second"
          ToastType.success 5000).1 "n" =
        [⟨"a", "first", ToastType.info, 5000⟩]) ∧
    (addToast [⟨"a", "first", ToastType.info, 5000⟩] "n" "second" ToastType.success 0).2 =
      none :=
  toastStore_add_remove [⟨"a", "first", ToastType.info, 5000⟩] "n" "second"
    ToastType.success 5000

/-- C10: the payload confirmMutation passes to confirmBulkSchedule is an
order-preserving subsequence of the projections of the preview entries,
consists exactly of the projections of the entries whose is_valid flag is
true (every payload item comes from a valid entry, every valid entry
contributes its projection), and its length is the number of valid entries —
so invalid entries are never submitted. -/
theorem confirmPayload_valid_entries (entries : List BulkPreviewEntry) :
    List.Sublist (confirmPayload entries) (entries.map projectEntry) ∧
    (∀ q ∈ confirmPayload entries,
      ∃ e, e ∈ entries ∧ e.is_valid = true ∧ q = projectEntry e) ∧
    (∀ e ∈ entries, e.is_valid = true → projectEntry e ∈ confirmPayload entries) ∧
    (confirmPayload entries).length = entries.countP (fun e => e.is_valid) := by
  refine ⟨List.Sublist.map projectEntry (List.filter_sublist entries), ?_, ?_, ?_⟩
  · intro q hq
    rcases List.mem_map.mp hq with ⟨e, he, hqe⟩
    rcases List.mem_filter.mp he with ⟨hmem, hvalid⟩
    exact ⟨e, hmem, hvalid, hqe.symm⟩
  · intro e he hv
    exact List.mem_map.mpr ⟨e, List.mem_filter.mpr ⟨he, hv⟩, rfl⟩
  · simp [confirmPayload, List.countP_eq_length_filter]

/-- C10 witness: a two-entry preview with one invalid row; the confirmed
payload is exactly the projection of the valid row. -/
theorem confirmPayload_valid_entries_witness :
    List.Sublist
      (confirmPayload
        [⟨1, "ok", ["instagram"], "2024-01-01T10:00", true, none⟩,
         ⟨2, "bad", [], "not-a-date", false, some "invalid"⟩])
      (([⟨1, "ok", ["instagram"], "2024-01-01T10:00", true, none⟩,
         ⟨2, "bad", [], "not-a-date", false, some "invalid"⟩] :
           List BulkPreviewEntry).map projectEntry) ∧
    (∀ q ∈ confirmPayload
        [⟨1, "ok", ["instagram"], "2024-01-01T10:00", true, none⟩,
         ⟨2, "bad", [], "not-a-date", false, some "invalid"⟩],
      ∃ e, e ∈ ([⟨1, "ok", ["instagram"], "2024-01-01T10:00", true, none⟩,
                 ⟨2, "bad", [], "not-a-date", false, some "invalid"⟩] :
                   List BulkPreviewEntry) ∧
        e.is_valid = true ∧ q = projectEntry e) ∧
    (∀ e ∈ ([⟨1, "ok", ["instagram"], "2024-01-01T10:00", true, none⟩,
             ⟨2, "bad", [], "not-a-date", false, some "invalid"⟩] :
               List BulkPreviewEntry),
      e.is_valid = true →
      projectEntry e ∈ confirmPayload
        [⟨1, "ok", ["instagram"], "2024-01-01T10:00", true, none⟩,
         ⟨2, "bad", [], "not-a-date", false, some "invalid"⟩]) ∧
    (confirmPayload
      [⟨1, "ok", ["instagram"], "2024-01-01T10:00", true, none⟩,
       ⟨2, "bad", [], "not-a-date", false, some "invalid"⟩]).length =
      ([⟨1, "ok", ["instagram"], "2024-01-01T10:00", true, none⟩,
        ⟨2, "bad", [], "not-a-date", false, some "invalid"⟩] :
          List BulkPreviewEntry).countP (fun e => e.is_valid) :=
  confirmPayload_valid_entries
    [⟨1, "ok", ["instagram"], "2024-01-01T10:00", true, none⟩,
     ⟨2, "bad", [], "not-a-date", false, some "invalid"⟩]
